import Mathlib

/-!
Verification of the binance-proxy caching engine against its
natural-language specification.  The Go source is shallowly embedded:
pure fragments become Lean functions, per-class mutable state becomes
explicit state records, times are integers in milliseconds, and Go
panics or nil dereferences are modelled with `Option`.
-/

namespace BinanceProxy

/-- Embeds `type Kline struct` (klines service).  Fields `openP`, `highP`,
`lowP`, `closeP`, `volumeP` correspond to the Go fields `Open`, `High`,
`Low`, `Close`, `Volume`; the decimal values are kept verbatim as strings,
exactly as in the source. -/
structure Kline where
  openTime : Int
  openP : String
  highP : String
  lowP : String
  closeP : String
  volumeP : String
  closeTime : Int
  quoteAssetVolume : String
  tradeNum : Int
  takerBuyBaseAssetVolume : String
  takerBuyQuoteAssetVolume : String
deriving DecidableEq, Repr

/-- Embeds the merge step of `KlinesSrv.wsHandler` (klines service,
lines 247-255): compare the incoming kline `k` with the back of the
window; push when strictly newer, replace the back in place when the
open times are equal, drop otherwise; then evict from the front until
the length is at most 1000.  `window.getLast?` models Go
`s.klinesList.Back()`: when the list is empty `Back()` returns `nil`
and the source dereferences it (`.Value`), which panics; that outcome
is modelled as `none`. -/
def mergeKline (window : List Kline) (k : Kline) : Option (List Kline) :=
  match window.getLast? with
  | none => none
  | some back =>
    let pushed :=
      if back.openTime < k.openTime then window ++ [k]
      else if back.openTime = k.openTime then window.dropLast ++ [k]
      else window
    some (pushed.drop (pushed.length - 1000))

/-- Query parameters as read through Go `url.Values.Get`: a missing
parameter and a parameter with an empty value are both the empty
string, exactly as `Get` reports them. -/
structure Query where
  symbol : String
  limit : String
deriving DecidableEq, Repr

/-- Accumulates decimal digits; any non-digit character aborts.  Used to
embed `strconv.Atoi`. -/
def digitsToNat (cs : List Char) : Option Nat :=
  cs.foldl
    (fun acc c =>
      match acc with
      | none => none
      | some n => if c.isDigit then some (n * 10 + (c.toNat - 48)) else none)
    (some 0)

/-- Embeds Go `strconv.Atoi`: an optional single leading sign followed by
at least one decimal digit; anything else is an error (`none`), and so is
a value outside the 64-bit signed range (Go reports `ErrRange`, which all
call sites treat as failure). -/
def atoi (s : String) : Option Int :=
  let cs := s.toList
  let signed : Bool × List Char :=
    match cs with
    | c :: rest =>
      if c = ('-') then (true, rest)
      else if c = ('+') then (false, rest)
      else (false, cs)
    | [] => (false, [])
  if signed.2 = [] then none
  else
    match digitsToNat signed.2 with
    | none => none
    | some n =>
      let v : Int := if signed.1 then -(n : Int) else (n : Int)
      if v < -(9223372036854775808 : Int) ∨ (9223372036854775807 : Int) < v then none
      else some v

/-- Embeds `calculateKlineWeight` (limiter.go lines 128-151). -/
def calculateKlineWeight (query : Query) : Int :=
  if query.limit = ("") then 1
  else
    match atoi query.limit with
    | none => 1
    | some v =>
      if v ≤ 100 then 1
      else if v ≤ 500 then 2
      else if v ≤ 1000 then 5
      else if v ≤ 1500 then 10
      else 10

/-- Embeds `calculateDepthWeightSpot` (limiter.go lines 154-177). -/
def calculateDepthWeightSpot (query : Query) : Int :=
  if query.limit = ("") then 1
  else
    match atoi query.limit with
    | none => 1
    | some v =>
      if v ≤ 100 then 1
      else if v ≤ 500 then 5
      else if v = 1000 then 10
      else if v = 5000 then 50
      else 1

/-- Embeds `calculateDepthWeightFutures` (limiter.go lines 180-203). -/
def calculateDepthWeightFutures (query : Query) : Int :=
  if query.limit = ("") then 2
  else
    match atoi query.limit with
    | none => 2
    | some v =>
      if v ≤ 50 then 2
      else if v = 100 then 5
      else if v = 500 then 10
      else if v = 1000 then 20
      else 2

/-- Embeds `calculateWeight` (limiter.go lines 72-125).  The Go `switch`
on the path is a sequence of string-equality tests with default weight 1;
the method is consulted only for `/api/v3/order`. -/
def calculateWeight (path method : String) (query : Query) : Int :=
  if path = ("/fapi/v1/klines") then calculateKlineWeight query
  else if path = ("/api/v3/klines") then calculateKlineWeight query
  else if path = ("/api/v3/depth") then calculateDepthWeightSpot query
  else if path = ("/fapi/v1/depth") then calculateDepthWeightFutures query
  else if path = ("/api/v3/ticker/24hr") ∨ path = ("/fapi/v1/ticker/24hr") then
    (if query.symbol = ("") then 40 else 1)
  else if path = ("/api/v3/exchangeInfo") ∨ path = ("/fapi/v1/exchangeInfo") then 10
  else if path = ("/api/v3/account") then 10
  else if path = ("/api/v3/myTrades") then 10
  else if path = ("/api/v3/order") then (if method = ("GET") then 2 else 1)
  else if path = ("/fapi/v1/userTrades") then 5
  else if path = ("/fapi/v2/account") then 5
  else if path = ("/api/v3/allOrders") then 10
  else if path = ("/fapi/v1/allOrders") then 5
  else if path = ("/api/v3/openOrders") then (if query.symbol = ("") then 40 else 3)
  else if path = ("/fapi/v1/openOrders") then (if query.symbol = ("") then 5 else 1)
  else 1

/-- Spec section 4.2 weight table, written from the specification text of
claim C2: klines and depth rows keyed on the parsed `limit`, ticker and
exchangeInfo rows, and weight 1 for every path not listed in the table.
Used only to compare the table of the claim with `calculateWeight`. -/
def specWeightTable (path method : String) (query : Query) : Int :=
  if path ∈ [("/api/v3/klines"), ("/fapi/v1/klines")] then calculateKlineWeight query
  else if path = ("/api/v3/depth") then calculateDepthWeightSpot query
  else if path = ("/fapi/v1/depth") then calculateDepthWeightFutures query
  else if path ∈ [("/api/v3/ticker/24hr"), ("/fapi/v1/ticker/24hr")] then
    (if query.symbol = ("") then 40 else 1)
  else if path ∈ [("/api/v3/exchangeInfo"), ("/fapi/v1/exchangeInfo")] then 10
  else 1

/-- The set of paths to which `calculateWeight` assigns a weight of its
own; on every path outside this list its `switch` falls through and the
weight stays 1. -/
def weightedPaths : List String :=
  [("/fapi/v1/klines"), ("/api/v3/klines"), ("/api/v3/depth"), ("/fapi/v1/depth"),
   ("/api/v3/ticker/24hr"), ("/fapi/v1/ticker/24hr"),
   ("/api/v3/exchangeInfo"), ("/fapi/v1/exchangeInfo"),
   ("/api/v3/account"), ("/api/v3/myTrades"), ("/api/v3/order"),
   ("/fapi/v1/userTrades"), ("/fapi/v2/account"),
   ("/api/v3/allOrders"), ("/fapi/v1/allOrders"),
   ("/api/v3/openOrders"), ("/fapi/v1/openOrders")]

/-- Query parameters of a klines request as read through
`r.URL.Query().Get`; the empty string stands for an absent parameter. -/
structure KlinesQuery where
  symbol : String
  interval : String
  limit : String
  startTime : String
  endTime : String
deriving DecidableEq, Repr

/-- One 12-element row of the on-wire klines JSON array, in source order
(kline.go lines 60-73): open time, OHLC and volume strings, close time,
quote volume, trade count, taker-buy volumes, and the fixed trailing
placeholder string. -/
structure KlineRow where
  openTime : Int
  openP : String
  highP : String
  lowP : String
  closeP : String
  volumeP : String
  closeTime : Int
  quoteVolume : String
  tradeNum : Int
  takerBase : String
  takerQuote : String
  placeholder : String
deriving DecidableEq, Repr

/-- Serialises one cached kline into a response row (kline.go lines
60-73). -/
def klineToRow (k : Kline) : KlineRow :=
  { openTime := k.openTime
    openP := k.openP
    highP := k.highP
    lowP := k.lowP
    closeP := k.closeP
    volumeP := k.volumeP
    closeTime := k.closeTime
    quoteVolume := k.quoteAssetVolume
    tradeNum := k.tradeNum
    takerBase := k.takerBuyBaseAssetVolume
    takerQuote := k.takerBuyQuoteAssetVolume
    placeholder := ("0") }

/-- The synthetic next-candle row built from the last cached kline
(kline.go lines 85-98). -/
def fakeKlineRow (lastData : Kline) : KlineRow :=
  { openTime := lastData.closeTime + 1
    openP := lastData.closeP
    highP := lastData.closeP
    lowP := lastData.closeP
    closeP := lastData.closeP
    volumeP := ("0.0")
    closeTime := lastData.closeTime + 1 + (lastData.closeTime - lastData.openTime)
    quoteVolume := ("0.0")
    tradeNum := 0
    takerBase := ("0.0")
    takerQuote := ("0.0")
    placeholder := ("0") }

/-- Outcome of the klines endpoint: answer from the stream cache,
forward upstream, or the ban-protection empty body. -/
inductive KlinesDecision where
  | banEmpty : KlinesDecision
  | forward : KlinesDecision
  | serve : List KlineRow → KlinesDecision
deriving DecidableEq, Repr

/-- The fake-kline overlay of `Handler.klines` (kline.go lines 82-105):
with fake klines enabled and the current time past the last cached
close time, write the synthetic row over the last response slot when
`len(klines) >= minLen` (line 100; `klines` was allocated with length
`minLen`, so this test is always true) and append it otherwise.  The Go
write `klines[len(klines)-1] = fakeKline` requires a non-empty slice,
which holds whenever the handler reaches this branch since `limit ≥ 1`
and the window is non-empty there. -/
def klinesFakeOverlay (rows : List KlineRow) (minLen : Nat) (lastData : Kline)
    (enableFakeKline : Bool) (currentTime : Int) : List KlineRow :=
  if enableFakeKline ∧ lastData.closeTime < currentTime then
    (if minLen ≤ rows.length then rows.dropLast ++ [fakeKlineRow lastData]
     else rows ++ [fakeKlineRow lastData])
  else rows

/-- The rows served by `Handler.klines` (kline.go lines 47-105): the
last `min(len(data), limit)` cached klines serialised in order, with the
fake-kline overlay applied when the window is non-empty. -/
def klinesServeRows (data : List Kline) (limitInt : Int)
    (enableFakeKline : Bool) (currentTime : Int) : List KlineRow :=
  match data.getLast? with
  | none => (data.drop (data.length - min data.length limitInt.toNat)).map klineToRow
  | some lastData =>
    klinesFakeOverlay
      ((data.drop (data.length - min data.length limitInt.toNat)).map klineToRow)
      (min data.length limitInt.toNat) lastData enableFakeKline currentTime

/-- Embeds `Handler.klines` from line 24 on (the part below the ban
guard): default the limit to "500", forward when the limit does not
parse or is outside 1..1000 or `startTime`, `endTime` are present or
`symbol`, `interval` are absent, forward when the snapshot is nil,
otherwise serve `klinesServeRows`. -/
def klinesRoute (q : KlinesQuery) (snapshot : Option (List Kline))
    (enableFakeKline : Bool) (currentTime : Int) : KlinesDecision :=
  match atoi (if q.limit = ("") then ("500") else q.limit) with
  | none => KlinesDecision.forward
  | some limitInt =>
    if limitInt ≤ 0 ∨ 1000 < limitInt ∨ q.startTime ≠ ("") ∨ q.endTime ≠ ("")
        ∨ q.symbol = ("") ∨ q.interval = ("") then
      KlinesDecision.forward
    else
      match snapshot with
      | none => KlinesDecision.forward
      | some data =>
        KlinesDecision.serve (klinesServeRows data limitInt enableFakeKline currentTime)

/-- Embeds the whole of `Handler.klines` including the ban guard at its
top (kline.go lines 14-22): while the class is banned the handler writes
a bare empty array with a ban-protection header and neither serves from
the stream nor forwards. -/
def klinesEndpoint (banned : Bool) (q : KlinesQuery) (snapshot : Option (List Kline))
    (enableFakeKline : Bool) (currentTime : Int) : KlinesDecision :=
  if banned then KlinesDecision.banEmpty
  else klinesRoute q snapshot enableFakeKline currentTime

/-- One price level of the order book, price and quantity as verbatim
strings. -/
structure PriceLevel where
  price : String
  quantity : String
deriving DecidableEq, Repr

/-- The cached depth snapshot (service depth type as read in depth.go):
update id, event and transaction times, and the two sides. -/
structure Depth where
  lastUpdateID : Int
  timeE : Int
  tradeTime : Int
  bids : List PriceLevel
  asks : List PriceLevel
deriving DecidableEq, Repr

/-- The on-wire depth response assembled in depth.go lines 55-87. -/
structure DepthResponse where
  lastUpdateId : Int
  e : Int
  t : Int
  bids : List (String × String)
  asks : List (String × String)
deriving DecidableEq, Repr

/-- Outcome of the depth endpoint. -/
inductive DepthDecision where
  | forward : DepthDecision
  | serve : DepthResponse → DepthDecision
deriving DecidableEq, Repr

/-- The response `Handler.depth` assembles from a snapshot (depth.go
lines 44-87): update id, event and transaction times, and BOTH sides
cut to `minLen = min(min(len(bids), len(asks)), limit)`, copying the
first `minLen` levels of each side in snapshot order. -/
def depthServe (d : Depth) (limitInt : Int) : DepthResponse :=
  { lastUpdateId := d.lastUpdateID
    e := d.timeE
    t := d.tradeTime
    bids := (d.bids.take (min (min d.bids.length d.asks.length) limitInt.toNat)).map
      (fun lv => (lv.price, lv.quantity))
    asks := (d.asks.take (min (min d.bids.length d.asks.length) limitInt.toNat)).map
      (fun lv => (lv.price, lv.quantity)) }

/-- Embeds `Handler.depth` (depth.go lines 24-95): default the limit to
"20", forward when the limit does not parse or `symbol` is absent or the
limit is outside 5..20, forward when the snapshot is nil, otherwise
serve `depthServe`. -/
def depthRoute (q : Query) (snapshot : Option Depth) : DepthDecision :=
  match atoi (if q.limit = ("") then ("20") else q.limit) with
  | none => DepthDecision.forward
  | some limitInt =>
    if q.symbol = ("") ∨ limitInt < 5 ∨ 20 < limitInt then
      DepthDecision.forward
    else
      match snapshot with
      | none => DepthDecision.forward
      | some d => DepthDecision.serve (depthServe d limitInt)

/-- The two market classes. -/
inductive Class where
  | spot : Class
  | futures : Class
deriving DecidableEq, Repr

/-- Default per-minute weight limits installed by `updateWeightInfo`
when none is set yet: 1200 for spot, 2400 for futures. -/
def weightDefaultLimit : Class → Int
  | Class.spot => 1200
  | Class.futures => 2400

/-- The per-class weight-tracking slice of `BanDetector`: used weight,
weight limit, and the end of the current one-minute window (`spotWeightReset`
resp. `futuresWeightReset`).  Times are milliseconds; the Go zero time is 0,
the state of the freshly constructed global detector. -/
structure WeightState where
  weightUsed : Int
  weightLimit : Int
  weightReset : Int
deriving DecidableEq, Repr

/-- Go `time.Truncate(time.Minute)` on a non-negative instant: round
down to a multiple of one minute (60000 ms). -/
def truncMinute (t : Int) : Int := (Int.ediv t 60000) * 60000

/-- Embeds `BanDetector.updateWeightInfo` for one class (ban detector
source lines 223-265): read `X-MBX-USED-WEIGHT-1M` (empty string means
the header is absent); when present and parsable store its value, when
absent increment the estimator, when unparsable leave the counter;
install the default limit when none is set; finally, in the same call,
perform the lazy per-minute rollover: when `now` is strictly after the
stored window end, zero the counter and move the window end to the next
minute boundary. -/
def updateWeightInfo (class_ : Class) (st : WeightState) (header : String)
    (now : Int) : WeightState :=
  let used :=
    if header = ("") then st.weightUsed + 1
    else
      match atoi header with
      | some v => v
      | none => st.weightUsed
  let limit := if st.weightLimit = 0 then weightDefaultLimit class_ else st.weightLimit
  if st.weightReset < now then
    { weightUsed := 0, weightLimit := limit, weightReset := truncMinute now + 60000 }
  else
    { weightUsed := used, weightLimit := limit, weightReset := st.weightReset }

/-- The slice of an upstream HTTP response that the weight tracker
reads: the `X-MBX-USED-WEIGHT-1M` header via `Header.Get` (empty string
when absent). -/
structure WeightResponse where
  usedWeightHeader : String
deriving DecidableEq, Repr

/-- The weight-tracking effect of `BanDetector.CheckResponse` (ban
detector source lines 80-99): when a response is present it is fed to
`updateWeightInfo`; no other statement of `CheckResponse` writes the
weight fields. -/
def checkResponseWeight (class_ : Class) (st : WeightState)
    (resp : Option WeightResponse) (now : Int) : WeightState :=
  match resp with
  | none => st
  | some r => updateWeightInfo class_ st r.usedWeightHeader now

/-- The synthetic empty body chosen per path by `returnEmptyResponse`
(ban-aware handler source lines 398-408). -/
def syntheticBody (path : String) : String :=
  if path = ("/api/v3/klines") ∨ path = ("/fapi/v1/klines") then ("[]")
  else if path = ("/api/v3/depth") ∨ path = ("/fapi/v1/depth") then
    ("\x7b\"lastUpdateId\":0,\"bids\":[],\"asks\":[]\x7d")
  else if path = ("/api/v3/ticker/24hr") then ("\x7b\x7d")
  else ("\x7b\x7d")

/-- Go `int(time.Until(until).Seconds())` with both instants in
milliseconds: the signed duration in whole seconds, truncated toward
zero exactly as the float-to-int conversion does. -/
def wholeSecondsUntil (deadline now : Int) : Int := Int.tdiv (deadline - now) 1000

/-- The observable synthetic empty response: status, the headers the
source sets, and the body. -/
structure EmptyResponse where
  status : Int
  contentType : String
  dataSource : String
  cacheControl : String
  xProxyEmpty : String
  retryAfter : Option Int
  body : String
deriving DecidableEq, Repr

/-- Embeds `Handler.returnEmptyResponse` of the ban-aware handler
(source lines 380-413, the variant the reverse proxy composes with):
always status 429 with `Content-Type`, `Data-Source: ban-protection`,
`Cache-Control: no-store` and `X-Proxy-Empty: 1`; when the detector
reports the class banned, `Retry-After` is the whole seconds until the
recovery deadline, except that any value below 1 is replaced by 30. -/
def returnEmptyResponse (path : String) (banned : Bool) (recoveryDeadline now : Int) :
    EmptyResponse :=
  { status := 429
    contentType := ("application/json")
    dataSource := ("ban-protection")
    cacheControl := ("no-store")
    xProxyEmpty := ("1")
    retryAfter :=
      if banned then
        some (if wholeSecondsUntil recoveryDeadline now < 1 then 30
              else wholeSecondsUntil recoveryDeadline now)
      else none
    body := syntheticBody path }

/-- Embeds the ban rewrite of `ModifyResponse` in the same handler
(source lines 289-329): when `CheckResponse` flags the upstream response
as a ban, the body is dropped and the response is rewritten to the same
synthetic empty shape, status and headers as `returnEmptyResponse`. -/
def modifyResponseBanRewrite (path : String) (banned : Bool)
    (recoveryDeadline now : Int) : EmptyResponse :=
  { status := 429
    contentType := ("application/json")
    dataSource := ("ban-protection")
    cacheControl := ("no-store")
    xProxyEmpty := ("1")
    retryAfter :=
      if banned then
        some (if wholeSecondsUntil recoveryDeadline now < 1 then 30
              else wholeSecondsUntil recoveryDeadline now)
      else none
    body := syntheticBody path }

/-- State of `ExchangeInfoSrv`: the stored raw body (`nil` before the
first successful fetch) and whether the one-shot init latch has fired. -/
structure ExchangeInfoState where
  exchangeInfo : Option (List Nat)
  latchFired : Bool
deriving DecidableEq, Repr

/-- The state of a freshly constructed `ExchangeInfoSrv`. -/
def exchangeInfoInit : ExchangeInfoState := { exchangeInfo := none, latchFired := false }

/-- Outcome of one `refreshExchangeInfo` attempt: skipped because the
class is banned, failed on fetch or ban detection, or succeeded with the
raw upstream body. -/
inductive RefreshOutcome where
  | banned : RefreshOutcome
  | fetchErr : RefreshOutcome
  | fetchOk : List Nat → RefreshOutcome
deriving DecidableEq, Repr

/-- Embeds `ExchangeInfoSrv.refreshExchangeInfo` (exchangeinfo.go lines
79-129): a banned or failed attempt returns without touching the stored
body; a successful attempt stores the body and fires the init latch
exactly when the stored body was still nil. -/
def refreshExchangeInfo : ExchangeInfoState → RefreshOutcome → ExchangeInfoState
  | st, RefreshOutcome.banned => st
  | st, RefreshOutcome.fetchErr => st
  | st, RefreshOutcome.fetchOk data =>
    { exchangeInfo := some data
      latchFired := st.latchFired || st.exchangeInfo.isNone }

/-- Whether one refresh step fires the init latch (the `defer s.initDone()`
guarded by `s.exchangeInfo == nil` at lines 120-122). -/
def refreshFiresLatch (st : ExchangeInfoState) : RefreshOutcome → Bool
  | RefreshOutcome.fetchOk _ => st.exchangeInfo.isNone
  | _ => false

/-- Number of latch firings over a sequence of refresh outcomes. -/
def latchFireCount : ExchangeInfoState → List RefreshOutcome → Nat
  | _, [] => 0
  | st, ev :: evs =>
    (if refreshFiresLatch st ev then 1 else 0)
      + latchFireCount (refreshExchangeInfo st ev) evs

/-- Run a sequence of refresh attempts from a state. -/
def runRefresh (st : ExchangeInfoState) (evs : List RefreshOutcome) : ExchangeInfoState :=
  evs.foldl refreshExchangeInfo st

/-- Accumulates the body of the most recent successful fetch. -/
def lastOkStep (acc : Option (List Nat)) (ev : RefreshOutcome) : Option (List Nat) :=
  match ev with
  | RefreshOutcome.fetchOk d => some d
  | _ => acc

/-- The body stored by the most recent successful fetch of a sequence,
if any. -/
def lastOkData (evs : List RefreshOutcome) : Option (List Nat) :=
  evs.foldl lastOkStep none

/-- Whether an outcome is a successful fetch. -/
def isFetchOk : RefreshOutcome → Bool
  | RefreshOutcome.fetchOk _ => true
  | _ => false

/-- Embeds `ExchangeInfoSrv.GetExchangeInfo` (exchangeinfo.go lines
63-69): block on the init latch, then return the stored body; `none`
models a caller still blocked on the latch. -/
def getExchangeInfo (st : ExchangeInfoState) : Option (List Nat) :=
  if st.latchFired then st.exchangeInfo else none

/-- Outbound network actions of the klines stream. -/
inductive NetAction where
  | wsDial : NetAction
  | restKlines : NetAction
deriving DecidableEq, Repr

/-- Embeds one iteration of the supervisor loop of `KlinesSrv.Start`
(klines service lines 54-77) as the outbound network actions it
initiates, as a function of the observed ban state: the loop clears the
cached list and calls `connect()` — a WebSocket dial — unconditionally;
no statement of `Start` consults the ban detector. -/
def klinesStartIterationActions (banned : Bool) : List NetAction :=
  [NetAction.wsDial]

/-- Result of one run of `KlinesSrv.initKlineData`. -/
structure InitKlineResult where
  window : List Kline
  latchFired : Bool
  actions : List NetAction
deriving DecidableEq, Repr

/-- Embeds `KlinesSrv.initKlineData` (klines service lines 107-206),
success path of the retry loop: while the class is banned the bootstrap
issues no REST call, installs an empty window and fires the init latch;
otherwise it issues the REST klines call and installs the fetched
window, firing the latch. -/
def initKlineData (banned : Bool) (fetched : List Kline) : InitKlineResult :=
  if banned then
    { window := [], latchFired := true, actions := [] }
  else
    { window := fetched, latchFired := true, actions := [NetAction.restKlines] }

/-- Strict ordering of klines by open time; the window invariant claimed
by the specification (non-decreasing open times with no duplicates) is
exactly pairwise strict increase. -/
def klineOrdered (w : List Kline) : Prop :=
  List.Pairwise (fun a b => a.openTime < b.openTime) w

/-- The query string `s` parses as an integer in `lo..hi` — the phrasing
used by the routing rows of the specification. -/
def limitParsesBetween (lo hi : Int) (s : String) : Prop :=
  ∃ n, atoi s = some n ∧ lo ≤ n ∧ n ≤ hi

instance (lo hi : Int) (s : String) : Decidable (limitParsesBetween lo hi s) :=
  match h : atoi s with
  | some n =>
    decidable_of_iff (lo ≤ n ∧ n ≤ hi)
      (by
        constructor
        · intro hh
          exact ⟨n, h, hh.1, hh.2⟩
        · rintro ⟨m, hm, h1, h2⟩
          rw [h] at hm
          cases hm
          exact ⟨h1, h2⟩)
  | none =>
    isFalse (by rintro ⟨m, hm, -, -⟩; rw [h] at hm; cases hm)

/-- The serve condition of claim C5, written from the claim text: the
`limit` query parameter parses as an integer in 1..1000, neither
`startTime` nor `endTime` is present, both `symbol` and `interval` are
present, and the stream snapshot is non-nil. -/
def claimKlinesServeCond (q : KlinesQuery) (snapshot : Option (List Kline)) : Prop :=
  limitParsesBetween 1 1000 q.limit
    ∧ q.startTime = ("") ∧ q.endTime = ("")
    ∧ q.symbol ≠ ("") ∧ q.interval ≠ ("") ∧ snapshot ≠ none

/-- The serve condition of claim C5 amended with the source's default:
an absent `limit` is replaced by "500" before parsing. -/
def amendedKlinesServeCond (q : KlinesQuery) (snapshot : Option (List Kline)) : Prop :=
  limitParsesBetween 1 1000 (if q.limit = ("") then ("500") else q.limit)
    ∧ q.startTime = ("") ∧ q.endTime = ("")
    ∧ q.symbol ≠ ("") ∧ q.interval ≠ ("") ∧ snapshot ≠ none

/-- The serve condition of claim C8, written from the claim text:
`symbol` present and `limit` parses in 5..20. -/
def claimDepthServeCond (q : Query) : Prop :=
  q.symbol ≠ ("") ∧ limitParsesBetween 5 20 q.limit

/-- The serve condition of claim C8 amended with the source's default
(`limit` absent means "20") and the nil-snapshot fallthrough. -/
def amendedDepthServeCond (q : Query) (snapshot : Option Depth) : Prop :=
  q.symbol ≠ ("")
    ∧ limitParsesBetween 5 20 (if q.limit = ("") then ("20") else q.limit)
    ∧ snapshot ≠ none

/-- Spec-side weight row for klines, written from the amended C2 table:
absent or unparsable limit counts 1; otherwise 1/2/5/10 by the
thresholds 100/500/1000, and 10 above. -/
def klineWeightRow (limitStr : String) : Int :=
  match atoi limitStr with
  | none => 1
  | some v =>
    if v ≤ 100 then 1
    else if v ≤ 500 then 2
    else if v ≤ 1000 then 5
    else 10

/-- Spec-side weight row for spot depth, from the amended C2 table. -/
def spotDepthWeightRow (limitStr : String) : Int :=
  match atoi limitStr with
  | none => 1
  | some v =>
    if v ≤ 100 then 1
    else if v ≤ 500 then 5
    else if v = 1000 then 10
    else if v = 5000 then 50
    else 1

/-- Spec-side weight row for futures depth, from the amended C2 table. -/
def futuresDepthWeightRow (limitStr : String) : Int :=
  match atoi limitStr with
  | none => 2
  | some v =>
    if v ≤ 50 then 2
    else if v = 100 then 5
    else if v = 500 then 10
    else if v = 1000 then 20
    else 2

/-- A sample cached kline: the 1m candle with open time 0. -/
def kSampleA : Kline :=
  { openTime := 0
    openP := ("1.0")
    highP := ("1.5")
    lowP := ("0.5")
    closeP := ("1.2")
    volumeP := ("10.0")
    closeTime := 59999
    quoteAssetVolume := ("12.0")
    tradeNum := 3
    takerBuyBaseAssetVolume := ("4.0")
    takerBuyQuoteAssetVolume := ("5.0") }

/-- A sample cached kline: the 1m candle with open time 60000. -/
def kSampleB : Kline :=
  { openTime := 60000
    openP := ("1.2")
    highP := ("1.4")
    lowP := ("1.1")
    closeP := ("1.3")
    volumeP := ("8.0")
    closeTime := 119999
    quoteAssetVolume := ("9.0")
    tradeNum := 2
    takerBuyBaseAssetVolume := ("3.0")
    takerBuyQuoteAssetVolume := ("2.0") }

/-- A klines request with symbol and interval but no other parameter. -/
def qKlinesNoLimit : KlinesQuery :=
  { symbol := ("BTCUSDT"), interval := ("1m"), limit := (""), startTime := (""), endTime := ("") }

/-- A klines request asking for at most 5 rows. -/
def qKlinesLimit5 : KlinesQuery :=
  { symbol := ("BTCUSDT"), interval := ("1m"), limit := ("5"), startTime := (""), endTime := ("") }

/-- A depth snapshot whose sides have different lengths: two bid levels,
one ask level. -/
def depthSample : Depth :=
  { lastUpdateID := 42
    timeE := 1000
    tradeTime := 2000
    bids := [{ price := ("2.0"), quantity := ("5") }, { price := ("1.0"), quantity := ("6") }]
    asks := [{ price := ("3.0"), quantity := ("7") }] }

/-- A depth request with symbol and limit 5. -/
def qDepth5 : Query := { symbol := ("BTCUSDT"), limit := ("5") }

instance (q : KlinesQuery) (snapshot : Option (List Kline)) :
    Decidable (claimKlinesServeCond q snapshot) := by
  unfold claimKlinesServeCond
  infer_instance

instance (q : Query) : Decidable (claimDepthServeCond q) := by
  unfold claimDepthServeCond
  infer_instance

instance (q : Query) (snapshot : Option Depth) :
    Decidable (amendedDepthServeCond q snapshot) := by
  unfold amendedDepthServeCond
  infer_instance

/-- The response `Handler.depth` actually produces for `qDepth5` on
`depthSample`: both sides cut to `min(min 2 1, 5) = 1` level. -/
def depthCodeResult : DepthResponse :=
  { lastUpdateId := 42, e := 1000, t := 2000,
    bids := [(("2.0"), ("5"))], asks := [(("3.0"), ("7"))] }

/-- The response claim C8 predicts for `qDepth5` on `depthSample`: each
side cut to `min(limit, side length)` of its own, so both bid levels
survive. -/
def depthClaimResult : DepthResponse :=
  { lastUpdateId := 42, e := 1000, t := 2000,
    bids := [(("2.0"), ("5")), (("1.0"), ("6"))], asks := [(("3.0"), ("7"))] }

/-- The rows claim C4 predicts for `qKlinesLimit5` on the two-kline
window at time 200000: both real rows, with the synthetic row appended
because the response holds fewer than `limit` rows. -/
def klinesClaimC4Rows : List KlineRow :=
  [klineToRow kSampleA, klineToRow kSampleB, fakeKlineRow kSampleB]

/-- The rows the source actually produces at the same input: the
synthetic row overwrites the last real row. -/
def klinesCodeC4Rows : List KlineRow :=
  [klineToRow kSampleA, fakeKlineRow kSampleB]

/-- The depth response of the amended claim C8: update id, event and
transaction times from the snapshot, and BOTH sides truncated to
`min(min(len(bids), len(asks)), limit)` levels in snapshot order. -/
def depthServeResult (d : Depth) (n : Int) : DepthResponse :=
  { lastUpdateId := d.lastUpdateID
    e := d.timeE
    t := d.tradeTime
    bids := (d.bids.take (min (min d.bids.length d.asks.length) n.toNat)).map
      (fun lv => (lv.price, lv.quantity))
    asks := (d.asks.take (min (min d.bids.length d.asks.length) n.toNat)).map
      (fun lv => (lv.price, lv.quantity)) }

end BinanceProxy

namespace BinanceProxy

/-- Claim C7 amended: a `check_response` call that consumes a response
carrying a parsable `X-MBX-USED-WEIGHT-1M: v` stores `v` exactly when
the call happens at or before the stored window end; a call strictly
after the window end performs the lazy rollover inside the same call,
zeroing the just-stored value and moving the window end to the next
minute boundary.  The counter is thus never reset before the window
end. -/
theorem weight_update_amended (class_ : Class) (st : WeightState) (hdr : String)
    (v now : Int) (hne : hdr ≠ ("")) (hparse : atoi hdr = some v) :
    (st.weightReset < now →
      (checkResponseWeight class_ st (some { usedWeightHeader := hdr }) now).weightUsed = 0
        ∧ (checkResponseWeight class_ st (some { usedWeightHeader := hdr }) now).weightReset
            = truncMinute now + 60000)
    ∧ (¬ st.weightReset < now →
      (checkResponseWeight class_ st (some { usedWeightHeader := hdr }) now).weightUsed = v
        ∧ (checkResponseWeight class_ st (some { usedWeightHeader := hdr }) now).weightReset
            = st.weightReset) := by
  simp only [checkResponseWeight, updateWeightInfo, if_neg hne, hparse]
  constructor
  · intro h
    rw [if_pos h]
    exact ⟨rfl, rfl⟩
  · intro h
    rw [if_neg h]
    exact ⟨rfl, rfl⟩

/-- Witness for `weight_update_amended`: a call within the current
window (now = 60000 ≤ window end 120000) stores the header value 100. -/
theorem weight_update_amended_witness :
    (checkResponseWeight Class.spot
        { weightUsed := 5, weightLimit := 1200, weightReset := 120000 }
        (some { usedWeightHeader := ("100") }) 60000).weightUsed = 100
      ∧ (checkResponseWeight Class.spot
        { weightUsed := 5, weightLimit := 1200, weightReset := 120000 }
        (some { usedWeightHeader := ("100") }) 60000).weightReset = 120000 :=
  (weight_update_amended Class.spot
      { weightUsed := 5, weightLimit := 1200, weightReset := 120000 }
      ("100") 100 60000 (by decide) (by decide)).2 (by decide)

/-- Claim C6 amended: a forwarded request served while the class is
banned, or rewritten because the quota controller flags the upstream
response as a ban, is answered with status 429, the per-path synthetic
empty body, headers `Data-Source: ban-protection`,
`Cache-Control: no-store`, `X-Proxy-Empty: 1`, and `Retry-After` equal
to the whole seconds remaining until the recovery deadline — except
that a remainder below one whole second is replaced by 30. -/
theorem ban_empty_response_amended (path : String) (deadline now : Int)
    (h : 1 ≤ wholeSecondsUntil deadline now) :
    (returnEmptyResponse path true deadline now).status = 429
    ∧ (returnEmptyResponse path true deadline now).dataSource = ("ban-protection")
    ∧ (returnEmptyResponse path true deadline now).cacheControl = ("no-store")
    ∧ (returnEmptyResponse path true deadline now).xProxyEmpty = ("1")
    ∧ (returnEmptyResponse path true deadline now).retryAfter
        = some (wholeSecondsUntil deadline now)
    ∧ modifyResponseBanRewrite path true deadline now = returnEmptyResponse path true deadline now
    ∧ ((path = ("/api/v3/klines") ∨ path = ("/fapi/v1/klines")) →
        (returnEmptyResponse path true deadline now).body = ("[]"))
    ∧ ((path = ("/api/v3/depth") ∨ path = ("/fapi/v1/depth")) →
        (returnEmptyResponse path true deadline now).body
          = ("\x7b\"lastUpdateId\":0,\"bids\":[],\"asks\":[]\x7d"))
    ∧ (¬(path = ("/api/v3/klines") ∨ path = ("/fapi/v1/klines")
          ∨ path = ("/api/v3/depth") ∨ path = ("/fapi/v1/depth")) →
        (returnEmptyResponse path true deadline now).body = ("\x7b\x7d"))
    ∧ (∀ d2 n2 : Int, wholeSecondsUntil d2 n2 < 1 →
        (returnEmptyResponse path true d2 n2).retryAfter = some 30) := by
  refine ⟨rfl, rfl, rfl, rfl, ?_, rfl, ?_, ?_, ?_, ?_⟩
  · have hnl : ¬ (wholeSecondsUntil deadline now < 1) := by omega
    simp [returnEmptyResponse, hnl]
  · rintro (hp | hp) <;> subst hp <;> rfl
  · rintro (hp | hp) <;> subst hp <;> rfl
  · intro hnp
    push_neg at hnp
    obtain ⟨h1, h2, h3, h4⟩ := hnp
    simp [returnEmptyResponse, syntheticBody, h1, h2, h3, h4]
  · intro d2 n2 hlt
    simp [returnEmptyResponse, hlt]

/-- Witness for `ban_empty_response_amended` at the klines path with 120
whole seconds remaining until the recovery deadline. -/
theorem ban_empty_response_amended_witness :
    (returnEmptyResponse ("/api/v3/klines") true 1000120000 1000000000).status = 429
    ∧ (returnEmptyResponse ("/api/v3/klines") true 1000120000 1000000000).dataSource
        = ("ban-protection")
    ∧ (returnEmptyResponse ("/api/v3/klines") true 1000120000 1000000000).cacheControl
        = ("no-store")
    ∧ (returnEmptyResponse ("/api/v3/klines") true 1000120000 1000000000).xProxyEmpty = ("1")
    ∧ (returnEmptyResponse ("/api/v3/klines") true 1000120000 1000000000).retryAfter
        = some (wholeSecondsUntil 1000120000 1000000000)
    ∧ modifyResponseBanRewrite ("/api/v3/klines") true 1000120000 1000000000
        = returnEmptyResponse ("/api/v3/klines") true 1000120000 1000000000
    ∧ ((("/api/v3/klines") = ("/api/v3/klines") ∨ ("/api/v3/klines") = ("/fapi/v1/klines")) →
        (returnEmptyResponse ("/api/v3/klines") true 1000120000 1000000000).body = ("[]"))
    ∧ ((("/api/v3/klines") = ("/api/v3/depth") ∨ ("/api/v3/klines") = ("/fapi/v1/depth")) →
        (returnEmptyResponse ("/api/v3/klines") true 1000120000 1000000000).body
          = ("\x7b\"lastUpdateId\":0,\"bids\":[],\"asks\":[]\x7d"))
    ∧ (¬(("/api/v3/klines") = ("/api/v3/klines") ∨ ("/api/v3/klines") = ("/fapi/v1/klines")
          ∨ ("/api/v3/klines") = ("/api/v3/depth") ∨ ("/api/v3/klines") = ("/fapi/v1/depth")) →
        (returnEmptyResponse ("/api/v3/klines") true 1000120000 1000000000).body = ("\x7b\x7d"))
    ∧ (∀ d2 n2 : Int, wholeSecondsUntil d2 n2 < 1 →
        (returnEmptyResponse ("/api/v3/klines") true d2 n2).retryAfter = some 30) :=
  ban_empty_response_amended ("/api/v3/klines") 1000120000 1000000000 (by decide)

/-- The code's kline weight helper agrees with the spec-side row
function. -/
lemma calculateKlineWeight_eq_row (q : Query) :
    calculateKlineWeight q = klineWeightRow q.limit := by
  unfold calculateKlineWeight klineWeightRow
  by_cases h : q.limit = ("")
  · rw [if_pos h, h]
    rfl
  · rw [if_neg h]
    cases hA : atoi q.limit with
    | none => rfl
    | some v =>
      by_cases h1 : v ≤ 100
      · simp [h1]
      · by_cases h2 : v ≤ 500
        · simp [h1, h2]
        · by_cases h3 : v ≤ 1000
          · simp [h1, h2, h3]
          · simp [h1, h2, h3]

/-- The code's spot depth weight helper agrees with the spec-side row
function. -/
lemma calculateDepthWeightSpot_eq_row (q : Query) :
    calculateDepthWeightSpot q = spotDepthWeightRow q.limit := by
  unfold calculateDepthWeightSpot spotDepthWeightRow
  by_cases h : q.limit = ("")
  · rw [if_pos h, h]
    rfl
  · rw [if_neg h]

/-- The code's futures depth weight helper agrees with the spec-side
row function. -/
lemma calculateDepthWeightFutures_eq_row (q : Query) :
    calculateDepthWeightFutures q = futuresDepthWeightRow q.limit := by
  unfold calculateDepthWeightFutures futuresDepthWeightRow
  by_cases h : q.limit = ("")
  · rw [if_pos h, h]
    rfl
  · rw [if_neg h]

/-- Claim C2 amended: `calculateWeight` reproduces every row of the
section 4.2 table — klines 1/2/5/10 by parsed limit with 10 above 1500,
spot depth 1/5/10/50, futures depth 2/5/10/20, ticker 40 or 1 by symbol
presence, exchangeInfo 10 — and additionally weighs the account and
order endpoints (`/api/v3/account` 10, `/api/v3/myTrades` 10,
`/api/v3/order` 2 for GET else 1, `/fapi/v1/userTrades` 5,
`/fapi/v2/account` 5, `/api/v3/allOrders` 10, `/fapi/v1/allOrders` 5,
`/api/v3/openOrders` 40 without symbol else 3, `/fapi/v1/openOrders` 5
without symbol else 1); a missing or unparsable limit weighs like the
smallest row; every path outside this list weighs 1. -/
theorem calculateWeight_amended_table :
    (∀ m q, calculateWeight ("/api/v3/klines") m q = klineWeightRow q.limit)
    ∧ (∀ m q, calculateWeight ("/fapi/v1/klines") m q = klineWeightRow q.limit)
    ∧ (∀ m q, calculateWeight ("/api/v3/depth") m q = spotDepthWeightRow q.limit)
    ∧ (∀ m q, calculateWeight ("/fapi/v1/depth") m q = futuresDepthWeightRow q.limit)
    ∧ (∀ m q, calculateWeight ("/api/v3/ticker/24hr") m q
        = if q.symbol = ("") then 40 else 1)
    ∧ (∀ m q, calculateWeight ("/fapi/v1/ticker/24hr") m q
        = if q.symbol = ("") then 40 else 1)
    ∧ (∀ m q, calculateWeight ("/api/v3/exchangeInfo") m q = 10)
    ∧ (∀ m q, calculateWeight ("/fapi/v1/exchangeInfo") m q = 10)
    ∧ (∀ m q, calculateWeight ("/api/v3/account") m q = 10)
    ∧ (∀ m q, calculateWeight ("/api/v3/myTrades") m q = 10)
    ∧ (∀ q, calculateWeight ("/api/v3/order") ("GET") q = 2)
    ∧ (∀ m q, m ≠ ("GET") → calculateWeight ("/api/v3/order") m q = 1)
    ∧ (∀ m q, calculateWeight ("/fapi/v1/userTrades") m q = 5)
    ∧ (∀ m q, calculateWeight ("/fapi/v2/account") m q = 5)
    ∧ (∀ m q, calculateWeight ("/api/v3/allOrders") m q = 10)
    ∧ (∀ m q, calculateWeight ("/fapi/v1/allOrders") m q = 5)
    ∧ (∀ m q, calculateWeight ("/api/v3/openOrders") m q
        = if q.symbol = ("") then 40 else 3)
    ∧ (∀ m q, calculateWeight ("/fapi/v1/openOrders") m q
        = if q.symbol = ("") then 5 else 1)
    ∧ (∀ p m q, p ∉ weightedPaths → calculateWeight p m q = 1) := by
  refine ⟨?_, ?_, ?_, ?_, ?_, ?_, ?_, ?_, ?_, ?_, ?_, ?_, ?_, ?_, ?_, ?_, ?_, ?_, ?_⟩
  · intro m q
    simp [calculateWeight, calculateKlineWeight_eq_row]
  · intro m q
    simp [calculateWeight, calculateKlineWeight_eq_row]
  · intro m q
    simp [calculateWeight, calculateDepthWeightSpot_eq_row]
  · intro m q
    simp [calculateWeight, calculateDepthWeightFutures_eq_row]
  · intro m q
    simp [calculateWeight]
  · intro m q
    simp [calculateWeight]
  · intro m q
    simp [calculateWeight]
  · intro m q
    simp [calculateWeight]
  · intro m q
    simp [calculateWeight]
  · intro m q
    simp [calculateWeight]
  · intro q
    simp [calculateWeight]
  · intro m q hm
    simp [calculateWeight, hm]
  · intro m q
    simp [calculateWeight]
  · intro m q
    simp [calculateWeight]
  · intro m q
    simp [calculateWeight]
  · intro m q
    simp [calculateWeight]
  · intro m q
    simp [calculateWeight]
  · intro m q
    simp [calculateWeight]
  · intro p m q h
    simp only [weightedPaths, List.mem_cons, List.not_mem_nil, or_false, not_or] at h
    obtain ⟨n1, n2, n3, n4, n5, n6, n7, n8, n9, n10, n11, n12, n13, n14, n15, n16, n17⟩ := h
    simp [calculateWeight, n1, n2, n3, n4, n5, n6, n7, n8, n9, n10, n11, n12, n13,
      n14, n15, n16, n17]

/-- Witness for `calculateWeight_amended_table`: non-GET `/api/v3/order`
weighs 1, and the unlisted path `/api/v3/time` weighs 1. -/
theorem calculateWeight_amended_table_witness :
    calculateWeight ("/api/v3/order") ("POST") { symbol := (""), limit := ("") } = 1
      ∧ calculateWeight ("/api/v3/time") ("GET") { symbol := (""), limit := ("") } = 1 :=
  ⟨calculateWeight_amended_table.2.2.2.2.2.2.2.2.2.2.2.1 ("POST")
      { symbol := (""), limit := ("") } (by decide),
    calculateWeight_amended_table.2.2.2.2.2.2.2.2.2.2.2.2.2.2.2.2.2.2 ("/api/v3/time") ("GET")
      { symbol := (""), limit := ("") } (by decide)⟩

/-- In a strictly ordered window every element before the back has a
strictly smaller open time than the back. -/
lemma dropLast_lt_getLast {w : List Kline} (hne : w ≠ []) (hord : klineOrdered w) :
    ∀ a ∈ w.dropLast, a.openTime < (w.getLast hne).openTime := by
  intro a ha
  have hsplit : w.dropLast ++ [w.getLast hne] = w := List.dropLast_append_getLast hne
  unfold klineOrdered at hord
  rw [← hsplit] at hord
  exact (List.pairwise_append.mp hord).2.2 a ha _ (by simp)

/-- In a strictly ordered window the back has the largest open time. -/
lemma mem_le_getLast {w : List Kline} (hne : w ≠ []) (hord : klineOrdered w) :
    ∀ a ∈ w, a.openTime ≤ (w.getLast hne).openTime := by
  intro a ha
  rw [← List.dropLast_append_getLast hne] at ha
  rcases List.mem_append.mp ha with h | h
  · exact le_of_lt (dropLast_lt_getLast hne hord a h)
  · rw [List.mem_singleton] at h
    rw [h]

/-- Claim C1: applied to a bootstrapped non-empty window that is
strictly ordered by open time and holds at most 1000 klines, the
WebSocket merge handles the event exactly as specified — append with
front eviction when the event is strictly newer than the back, replace
the back in place on an equal open time, drop on a smaller one — and
the published window is again strictly ordered by open time (hence
non-decreasing with no duplicate open times) with length at most
1000. -/
theorem merge_preserves_window_invariants (w : List Kline) (k : Kline) (hne : w ≠ [])
    (hord : klineOrdered w) (hlen : w.length ≤ 1000) :
    ∃ w2, mergeKline w k = some w2
      ∧ klineOrdered w2
      ∧ w2.length ≤ 1000
      ∧ ((w.getLast hne).openTime < k.openTime →
          w2 = (w ++ [k]).drop (w.length + 1 - 1000))
      ∧ ((w.getLast hne).openTime = k.openTime → w2 = w.dropLast ++ [k])
      ∧ (k.openTime < (w.getLast hne).openTime → w2 = w) := by
  have hwpos : 0 < w.length := List.length_pos.mpr hne
  have hlast : w.getLast? = some (w.getLast hne) := List.getLast?_eq_getLast w hne
  unfold mergeKline
  simp only [hlast]
  rcases lt_trichotomy (w.getLast hne).openTime k.openTime with hlt | heq | hgt
  · rw [if_pos hlt]
    refine ⟨_, rfl, ?_, ?_, ?_, ?_, ?_⟩
    · have hp : klineOrdered (w ++ [k]) := by
        unfold klineOrdered at hord ⊢
        refine List.pairwise_append.mpr ⟨hord, by simp, ?_⟩
        intro a ha b hb
        rw [List.mem_singleton] at hb
        rw [hb]
        exact lt_of_le_of_lt (mem_le_getLast hne hord a ha) hlt
      exact List.Pairwise.sublist (List.drop_sublist _ _) hp
    · simp only [List.length_drop]
      omega
    · intro _
      have h1 : (w ++ [k]).length = w.length + 1 := by simp
      rw [h1]
    · intro h
      exact absurd h (ne_of_lt hlt)
    · intro h
      exact absurd hlt (lt_asymm h)
  · rw [if_neg (show ¬ ((w.getLast hne).openTime < k.openTime) by omega), if_pos heq]
    have hlendl : (w.dropLast ++ [k]).length = w.length := by
      simp [List.length_dropLast]
      omega
    have hz : (w.dropLast ++ [k]).length - 1000 = 0 := by omega
    refine ⟨_, rfl, ?_, ?_, ?_, ?_, ?_⟩
    · rw [hz, List.drop_zero]
      unfold klineOrdered at hord ⊢
      refine List.pairwise_append.mpr ⟨List.Pairwise.sublist (List.dropLast_sublist w) hord,
        by simp, ?_⟩
      intro a ha b hb
      rw [List.mem_singleton] at hb
      rw [hb, ← heq]
      exact dropLast_lt_getLast hne hord a ha
    · simp only [List.length_drop]
      omega
    · intro h
      exact absurd h (by omega)
    · intro _
      rw [hz, List.drop_zero]
    · intro h
      exact absurd h (by omega)
  · rw [if_neg (show ¬ ((w.getLast hne).openTime < k.openTime) by omega),
      if_neg (show ¬ ((w.getLast hne).openTime = k.openTime) by omega)]
    have hz : w.length - 1000 = 0 := by omega
    refine ⟨_, rfl, ?_, ?_, ?_, ?_, ?_⟩
    · rw [hz, List.drop_zero]
      exact hord
    · simp only [List.length_drop]
      omega
    · intro h
      exact absurd h (by omega)
    · intro h
      exact absurd h (by omega)
    · intro _
      rw [hz, List.drop_zero]

/-- Witness for `merge_preserves_window_invariants`: merging the candle
with open time 60000 into the singleton window holding the candle with
open time 0. -/
theorem merge_preserves_window_invariants_witness :
    ∃ w2, mergeKline [kSampleA] kSampleB = some w2
      ∧ klineOrdered w2
      ∧ w2.length ≤ 1000
      ∧ (([kSampleA].getLast (List.cons_ne_nil kSampleA [])).openTime < kSampleB.openTime →
          w2 = ([kSampleA] ++ [kSampleB]).drop ([kSampleA].length + 1 - 1000))
      ∧ (([kSampleA].getLast (List.cons_ne_nil kSampleA [])).openTime = kSampleB.openTime →
          w2 = [kSampleA].dropLast ++ [kSampleB])
      ∧ (kSampleB.openTime < ([kSampleA].getLast (List.cons_ne_nil kSampleA [])).openTime →
          w2 = [kSampleA]) :=
  merge_preserves_window_invariants [kSampleA] kSampleB (List.cons_ne_nil kSampleA [])
    (by simp [klineOrdered]) (by simp)

/-- Folding the last-success accumulator from any start value agrees
with folding from `none`, which wins whenever some fetch succeeded. -/
lemma lastOk_fold (evs : List RefreshOutcome) :
    ∀ acc : Option (List Nat),
      evs.foldl lastOkStep acc
        = match lastOkData evs with
          | some d => some d
          | none => acc := by
  induction evs with
  | nil =>
    intro acc
    rfl
  | cons e evs ih =>
    intro acc
    show evs.foldl lastOkStep (lastOkStep acc e) = _
    rw [ih (lastOkStep acc e)]
    have h2 : lastOkData (e :: evs)
        = match lastOkData evs with
          | some d => some d
          | none => lastOkStep none e := by
      show evs.foldl lastOkStep (lastOkStep none e) = _
      rw [ih (lastOkStep none e)]
    rw [h2]
    cases lastOkData evs with
    | some d => rfl
    | none => cases e <;> rfl

/-- The last-success accumulator over a cons. -/
lemma lastOkData_cons (e : RefreshOutcome) (evs : List RefreshOutcome) :
    lastOkData (e :: evs)
      = match lastOkData evs with
        | some d => some d
        | none => lastOkStep none e := by
  show evs.foldl lastOkStep (lastOkStep none e) = _
  rw [lastOk_fold evs (lastOkStep none e)]

/-- A stored body never reverts to nil under refresh steps. -/
lemma runRefresh_some_stays (evs : List RefreshOutcome) :
    ∀ st : ExchangeInfoState, st.exchangeInfo ≠ none →
      (runRefresh st evs).exchangeInfo ≠ none := by
  induction evs with
  | nil =>
    intro st h
    exact h
  | cons e evs ih =>
    intro st h
    show (runRefresh (refreshExchangeInfo st e) evs).exchangeInfo ≠ none
    cases e with
    | banned => exact ih st h
    | fetchErr => exact ih st h
    | fetchOk d => exact ih _ (by simp [refreshExchangeInfo])

/-- Once a body is stored, the latch never fires again. -/
lemma latchFireCount_zero (evs : List RefreshOutcome) :
    ∀ st : ExchangeInfoState, st.exchangeInfo ≠ none →
      latchFireCount st evs = 0 := by
  induction evs with
  | nil =>
    intro st h
    rfl
  | cons e evs ih =>
    intro st h
    show (if refreshFiresLatch st e then 1 else 0)
        + latchFireCount (refreshExchangeInfo st e) evs = 0
    have hf : refreshFiresLatch st e = false := by
      cases e with
      | banned => rfl
      | fetchErr => rfl
      | fetchOk d =>
        show st.exchangeInfo.isNone = false
        cases hs : st.exchangeInfo with
        | none => exact absurd hs h
        | some x => rfl
    rw [hf]
    have hrest : latchFireCount (refreshExchangeInfo st e) evs = 0 := by
      cases e with
      | banned => exact ih st h
      | fetchErr => exact ih st h
      | fetchOk d => exact ih _ (by simp [refreshExchangeInfo])
    simp [hrest]

/-- The stored body after a run is the body of the most recent
successful fetch, or the initial body when none succeeded. -/
lemma runRefresh_exchangeInfo (evs : List RefreshOutcome) :
    ∀ st : ExchangeInfoState,
      (runRefresh st evs).exchangeInfo
        = match lastOkData evs with
          | some d => some d
          | none => st.exchangeInfo := by
  induction evs with
  | nil =>
    intro st
    rfl
  | cons e evs ih =>
    intro st
    show (runRefresh (refreshExchangeInfo st e) evs).exchangeInfo = _
    rw [ih (refreshExchangeInfo st e), lastOkData_cons]
    cases lastOkData evs with
    | some d => rfl
    | none => cases e <;> rfl

/-- The latch state after a run: it has fired exactly when it had
already fired or the body was nil and some fetch succeeded. -/
lemma runRefresh_latch (evs : List RefreshOutcome) :
    ∀ st : ExchangeInfoState,
      (runRefresh st evs).latchFired
        = (st.latchFired || (st.exchangeInfo.isNone && evs.any isFetchOk)) := by
  induction evs with
  | nil =>
    intro st
    simp [runRefresh]
  | cons e evs ih =>
    intro st
    show (runRefresh (refreshExchangeInfo st e) evs).latchFired = _
    rw [ih (refreshExchangeInfo st e)]
    cases e with
    | banned => simp [refreshExchangeInfo, isFetchOk]
    | fetchErr => simp [refreshExchangeInfo, isFetchOk]
    | fetchOk d =>
      simp only [refreshExchangeInfo, List.any_cons, isFetchOk]
      cases st.latchFired <;> cases hs : st.exchangeInfo <;> simp [hs]

/-- From a nil-body state the latch fires exactly once over a run iff
some fetch succeeds. -/
lemma latchFireCount_init (evs : List RefreshOutcome) :
    ∀ st : ExchangeInfoState, st.exchangeInfo = none →
      latchFireCount st evs = if evs.any isFetchOk then 1 else 0 := by
  induction evs with
  | nil =>
    intro st h
    rfl
  | cons e evs ih =>
    intro st h
    show (if refreshFiresLatch st e then 1 else 0)
        + latchFireCount (refreshExchangeInfo st e) evs = _
    cases e with
    | banned =>
      have hstep : refreshExchangeInfo st RefreshOutcome.banned = st := rfl
      rw [show refreshFiresLatch st RefreshOutcome.banned = false from rfl, hstep, ih st h]
      simp [isFetchOk]
    | fetchErr =>
      have hstep : refreshExchangeInfo st RefreshOutcome.fetchErr = st := rfl
      rw [show refreshFiresLatch st RefreshOutcome.fetchErr = false from rfl, hstep, ih st h]
      simp [isFetchOk]
    | fetchOk d =>
      have hf : refreshFiresLatch st (RefreshOutcome.fetchOk d) = true := by
        show st.exchangeInfo.isNone = true
        rw [h]
        rfl
      rw [hf, latchFireCount_zero evs _ (by simp [refreshExchangeInfo])]
      simp [isFetchOk]

/-- When some fetch succeeded there is a stored last body. -/
lemma lastOkData_ne_none (evs : List RefreshOutcome) :
    evs.any isFetchOk = true → lastOkData evs ≠ none := by
  induction evs with
  | nil =>
    intro h
    simp at h
  | cons e evs ih =>
    intro h
    rw [lastOkData_cons]
    cases hm : lastOkData evs with
    | some d => simp
    | none =>
      cases e with
      | fetchOk d => simp [lastOkStep]
      | banned =>
        simp only [List.any_cons, isFetchOk, Bool.false_or] at h
        exact absurd hm (ih h)
      | fetchErr =>
        simp only [List.any_cons, isFetchOk, Bool.false_or] at h
        exact absurd hm (ih h)

/-- Claim C9: `GetExchangeInfo` blocks on a one-shot latch that fires
exactly once, on the first successful fetch; after it has fired every
call returns the most recently stored non-nil body; and a refresh
attempt that fails or is skipped because of a ban leaves the stored
body unchanged. -/
theorem exchange_info_latch_once (evs : List RefreshOutcome) :
    latchFireCount exchangeInfoInit evs = (if evs.any isFetchOk then 1 else 0)
    ∧ (runRefresh exchangeInfoInit evs).latchFired = evs.any isFetchOk
    ∧ (evs.any isFetchOk = true →
        getExchangeInfo (runRefresh exchangeInfoInit evs) = lastOkData evs
        ∧ lastOkData evs ≠ none)
    ∧ (∀ st, refreshExchangeInfo st RefreshOutcome.banned = st
        ∧ refreshExchangeInfo st RefreshOutcome.fetchErr = st) := by
  refine ⟨latchFireCount_init evs exchangeInfoInit rfl, ?_, ?_, ?_⟩
  · rw [runRefresh_latch evs exchangeInfoInit]
    simp [exchangeInfoInit]
  · intro h
    refine ⟨?_, lastOkData_ne_none evs h⟩
    unfold getExchangeInfo
    rw [runRefresh_latch evs exchangeInfoInit]
    simp only [exchangeInfoInit, Option.isNone_none, Bool.true_and, Bool.false_or, h, if_pos]
    rw [runRefresh_exchangeInfo evs]
    cases lastOkData evs with
    | some d => rfl
    | none => rfl
  · intro st
    exact ⟨rfl, rfl⟩

/-- Witness for `exchange_info_latch_once`: after the single successful
fetch of the body `[1, 2, 3]`, reads return exactly that body. -/
theorem exchange_info_latch_once_witness :
    getExchangeInfo (runRefresh exchangeInfoInit [RefreshOutcome.fetchOk [1, 2, 3]])
        = lastOkData [RefreshOutcome.fetchOk [1, 2, 3]]
      ∧ lastOkData [RefreshOutcome.fetchOk [1, 2, 3]] ≠ none :=
  (exchange_info_latch_once [RefreshOutcome.fetchOk [1, 2, 3]]).2.2.1 (by decide)

/-- Claim C10: the claim states that the window the WebSocket merge
handler reads is non-empty in every reachable state — including the
state installed when the REST bootstrap is skipped under a ban — so that
taking the back of the list never dereferences nil.  The code violates
this: `initKlineData` under a ban installs `list.New()` (an empty,
non-nil list), and on the next WebSocket event `wsHandler` evaluates
`s.klinesList.Back().Value` where `Back()` is nil.  Evaluating the
embedding at that reachable state yields the modelled panic. -/
theorem merge_on_empty_window_panics : mergeKline [] kSampleA = none := rfl

/-- Claim C3 counterexample: with the class banned, one iteration of the
`KlinesSrv.Start` supervisor loop still initiates a WebSocket dial —
`Start` never consults the ban detector — refuting the claim that no
outbound WebSocket dial is initiated while `is_banned` holds. -/
theorem banned_start_still_dials_ws :
    NetAction.wsDial ∈ klinesStartIterationActions true
      ∧ klinesStartIterationActions true = [NetAction.wsDial] := by
  exact ⟨by decide, rfl⟩

/-- Claim C3 amended: while the class is banned the REST bootstrap is
skipped — `initKlineData` issues no REST call, installs an empty window
and fires the init latch — but the supervisor opens the WebSocket
connection regardless of the ban. -/
theorem banned_bootstrap_gating :
    ∀ fetched : List Kline,
      initKlineData true fetched
          = { window := [], latchFired := true, actions := [] }
        ∧ NetAction.restKlines ∉ (initKlineData true fetched).actions
        ∧ NetAction.wsDial ∈ klinesStartIterationActions true := by
  intro fetched
  refine ⟨rfl, ?_, by decide⟩
  simp [initKlineData]

/-- Claim C2 counterexample: `/api/v3/account` is not a row of the
specification table of section 4.2, whose final row assigns weight 1 to
everything else, yet `calculateWeight` gives it weight 10. -/
theorem weight_table_account_mismatch :
    calculateWeight ("/api/v3/account") ("GET") { symbol := (""), limit := ("") } = 10
      ∧ specWeightTable ("/api/v3/account") ("GET") { symbol := (""), limit := ("") } = 1
      ∧ (10 : Int) ≠ 1 := by
  refine ⟨by decide, by decide, by decide⟩

/-- Claim C5 counterexample: a klines request with no `limit` parameter
at all is served from the stream cache (the source defaults the limit to
"500"), although the claim's serve condition — `limit` parses as an
integer in 1..1000 — is false for the absent parameter. -/
theorem klines_serve_cond_mismatch :
    klinesRoute qKlinesNoLimit (some [kSampleA]) false 0
        = KlinesDecision.serve [klineToRow kSampleA]
      ∧ ¬ claimKlinesServeCond qKlinesNoLimit (some [kSampleA]) := by
  refine ⟨by decide, by decide⟩

/-- Claim C4 counterexample: with fake klines enabled, a two-kline
window and `limit = 5`, the response holds fewer rows than `limit`, so
the claim says the synthetic row is appended after both real rows; the
source instead always overwrites the trailing real row (its append
branch is dead because the response slice is allocated with exactly
`minLen` elements), producing two rows, not three. -/
theorem fake_kline_not_appended :
    klinesRoute qKlinesLimit5 (some [kSampleA, kSampleB]) true 200000
        = KlinesDecision.serve klinesCodeC4Rows
      ∧ klinesRoute qKlinesLimit5 (some [kSampleA, kSampleB]) true 200000
        ≠ KlinesDecision.serve klinesClaimC4Rows := by
  refine ⟨by decide, by decide⟩

/-- Claim C8 counterexample: on a snapshot with two bid levels and one
ask level and `limit = 5`, the claim predicts each side truncated to
`min(limit, side length)` — both bids survive — but the source truncates
both sides to `min(min(len(bids), len(asks)), limit) = 1`. -/
theorem depth_truncation_mismatch :
    depthRoute qDepth5 (some depthSample) = DepthDecision.serve depthCodeResult
      ∧ depthRoute qDepth5 (some depthSample) ≠ DepthDecision.serve depthClaimResult := by
  refine ⟨by decide, by decide⟩

/-- Claim C7 counterexample: the very first `check_response` on a fresh
detector consumes a response with `X-MBX-USED-WEIGHT-1M: 100`, but
immediately afterwards the stored weight is 0, not 100: the lazy
per-minute rollover inside the same `updateWeightInfo` call fires
(the stored window end is the zero time) and zeroes the value that the
header had just stored. -/
theorem weight_header_reset_mismatch :
    checkResponseWeight Class.spot { weightUsed := 0, weightLimit := 0, weightReset := 0 }
        (some { usedWeightHeader := ("100") }) 50000
        = { weightUsed := 0, weightLimit := 1200, weightReset := 60000 }
      ∧ ((0 : Int) ≠ 100) := by
  refine ⟨by decide, by decide⟩

/-- Claim C6 counterexample: with half a second left until the recovery
deadline, the whole seconds remaining are 0, but the source sets
`Retry-After: 30` — any computed value below 1 is replaced by 30 — so
the header does not equal the whole seconds remaining. -/
theorem retry_after_clamped_mismatch :
    (returnEmptyResponse ("/api/v3/klines") true 1000500 1000000).retryAfter = some 30
      ∧ wholeSecondsUntil 1000500 1000000 = 0
      ∧ some (30 : Int) ≠ some (0 : Int) := by
  refine ⟨by decide, by decide, by decide⟩

/-- Claim C5 amended: a klines request is served from the stream cache
if and only if the `limit` parameter — defaulted to "500" when absent —
parses as an integer in 1..1000, neither `startTime` nor `endTime` is
present, both `symbol` and `interval` are present, and the snapshot is
non-nil; in every other case the request is forwarded. -/
theorem klines_serve_iff_amended (q : KlinesQuery) (snapshot : Option (List Kline))
    (fake : Bool) (t : Int) :
    (∃ rows, klinesRoute q snapshot fake t = KlinesDecision.serve rows)
      ↔ amendedKlinesServeCond q snapshot := by
  unfold klinesRoute amendedKlinesServeCond limitParsesBetween
  constructor
  · rintro ⟨rows, hr⟩
    split at hr
    next => exact absurd hr (by simp)
    next n heq =>
      split at hr
      next => exact absurd hr (by simp)
      next hcond =>
        push_neg at hcond
        obtain ⟨a1, a2, a3, a4, a5, a6⟩ := hcond
        split at hr
        next => exact absurd hr (by simp)
        next data => exact ⟨⟨n, heq, by omega, by omega⟩, a3, a4, a5, a6, by simp⟩
  · rintro ⟨⟨n, hn, h1, h2⟩, hst, het, hsym, hint, hsnap⟩
    rcases snapshot with _ | data
    · exact absurd rfl hsnap
    · simp only [hn]
      rw [if_neg (by push_neg; exact ⟨by omega, by omega, hst, het, hsym, hint⟩)]
      exact ⟨_, rfl⟩

/-- Claim C8 amended: a depth request is served from the snapshot if and
only if `symbol` is present, the `limit` — defaulted to "20" when
absent — parses as an integer in 5..20, and the snapshot is non-nil; a
served response carries the snapshot's update id and times with BOTH
sides truncated to the first `min(min(len(bids), len(asks)), limit)`
levels in snapshot order. -/
theorem depth_serve_amended (q : Query) (snapshot : Option Depth) :
    ((∃ r, depthRoute q snapshot = DepthDecision.serve r)
        ↔ amendedDepthServeCond q snapshot)
    ∧ (∀ d n, atoi (if q.limit = ("") then ("20") else q.limit) = some n →
        ¬(q.symbol = ("") ∨ n < 5 ∨ 20 < n) →
        depthRoute q (some d) = DepthDecision.serve (depthServeResult d n)) := by
  constructor
  · unfold depthRoute amendedDepthServeCond limitParsesBetween
    constructor
    · rintro ⟨r, hr⟩
      split at hr
      next => exact absurd hr (by simp)
      next n heq =>
        split at hr
        next => exact absurd hr (by simp)
        next hcond =>
          push_neg at hcond
          obtain ⟨b1, b2, b3⟩ := hcond
          split at hr
          next => exact absurd hr (by simp)
          next d => exact ⟨b1, ⟨n, heq, by omega, by omega⟩, by simp⟩
    · rintro ⟨hsym, ⟨n, hn, h1, h2⟩, hsnap⟩
      rcases snapshot with _ | d
      · exact absurd rfl hsnap
      · simp only [hn]
        rw [if_neg (by push_neg; exact ⟨hsym, by omega, by omega⟩)]
        exact ⟨_, rfl⟩
  · intro d n hn hcond
    unfold depthRoute
    simp only [hn]
    rw [if_neg hcond]
    rfl

/-- Witness for `depth_serve_amended`: the request `qDepth5` on the
concrete snapshot `depthSample` is served with both sides cut to one
level. -/
theorem depth_serve_amended_witness :
    depthRoute qDepth5 (some depthSample) = DepthDecision.serve (depthServeResult depthSample 5) :=
  (depth_serve_amended qDepth5 (some depthSample)).2 depthSample 5 (by decide) (by decide)

/-- Claim C4 amended: with fake klines enabled, a non-empty window and
the current time past the last cached close time, a served response
consists of the last `min(len(window), limit)` real rows with the
synthetic row written over the trailing one — the row is never appended
as an extra element, so the response always has exactly
`min(len(window), limit)` rows (the source's append branch is dead
because the response slice is allocated with exactly that length). -/
theorem fake_kline_always_replaces_last (q : KlinesQuery) (data : List Kline) (t n : Int)
    (lastK : Kline)
    (hn : atoi (if q.limit = ("") then ("500") else q.limit) = some n)
    (hcond : ¬(n ≤ 0 ∨ 1000 < n ∨ q.startTime ≠ ("") ∨ q.endTime ≠ ("")
        ∨ q.symbol = ("") ∨ q.interval = ("")))
    (hlast : data.getLast? = some lastK)
    (ht : lastK.closeTime < t) :
    klinesRoute q (some data) true t
        = KlinesDecision.serve
            ((((data.drop (data.length - min data.length n.toNat)).map klineToRow).dropLast)
              ++ [fakeKlineRow lastK])
      ∧ ((((data.drop (data.length - min data.length n.toNat)).map klineToRow).dropLast)
              ++ [fakeKlineRow lastK]).length = min data.length n.toNat := by
  have hne : data ≠ [] := by
    intro h
    subst h
    simp at hlast
  have hdpos : 0 < data.length := List.length_pos.mpr hne
  have hnpos : 0 < n := by
    by_contra hle
    exact hcond (Or.inl (by omega))
  have hmin1 : 1 ≤ min data.length n.toNat :=
    le_min hdpos (by omega)
  have hrows : ((data.drop (data.length - min data.length n.toNat)).map klineToRow).length
      = min data.length n.toNat := by
    have hml := min_le_left data.length n.toNat
    simp [List.length_drop]
    omega
  constructor
  · unfold klinesRoute
    simp only [hn]
    rw [if_neg hcond]
    unfold klinesServeRows
    simp only [hlast]
    unfold klinesFakeOverlay
    rw [if_pos ⟨rfl, ht⟩]
    rw [if_pos (le_of_eq hrows.symm)]
  · rw [List.length_append, List.length_dropLast, hrows]
    simp
    omega

/-- Witness for `fake_kline_always_replaces_last`: the two-kline window
with `limit = 5` at time 200000 serves `min(2, 5) = 2` rows, the second
being the synthetic one. -/
theorem fake_kline_always_replaces_last_witness :
    klinesRoute qKlinesLimit5 (some [kSampleA, kSampleB]) true 200000
        = KlinesDecision.serve
            (((([kSampleA, kSampleB].drop
                ([kSampleA, kSampleB].length
                  - min [kSampleA, kSampleB].length (5 : Int).toNat)).map klineToRow).dropLast)
              ++ [fakeKlineRow kSampleB])
      ∧ (((([kSampleA, kSampleB].drop
                ([kSampleA, kSampleB].length
                  - min [kSampleA, kSampleB].length (5 : Int).toNat)).map klineToRow).dropLast)
              ++ [fakeKlineRow kSampleB]).length
          = min [kSampleA, kSampleB].length (5 : Int).toNat :=
  fake_kline_always_replaces_last qKlinesLimit5 [kSampleA, kSampleB] 200000 5 kSampleB
    (by decide) (by decide) (by decide) (by decide)

end BinanceProxy
